import Mathlib

/-!
Shallow embedding of the timeline animation engine in
`src/2026/fluent/animation_before.py`.

Coordinates, durations and instants are real numbers (Python floats are
modelled exactly, with `Real.cos`, `Real.sin` and `Real.pi` standing for
`math.cos`, `math.sin` and `math.radians`).  Colors are the literal Python
strings of the form produced and consumed by `Fade.apply`.  Python
exceptions (ZeroDivisionError from an empty centroid, ValueError from a
failed hex parse) are modelled by `Option`: `none` means the call raised.
-/

/-- Point in the plane, as in `graphics.ShapeData`. -/
abbrev Point : Type := ℝ × ℝ

/-- Ordered polygon vertices (`ShapeData = list[tuple[float, float]]`). -/
abbrev ShapeData : Type := List Point

/-- Colors travel as Python strings such as "#444444". -/
abbrev Color : Type := String

/-- Linear interpolation, `lerp` in the source: `a + (b - a) * t`. -/
noncomputable def lerp (a b t : ℝ) : ℝ := a + (b - a) * t

/-- Degrees to radians, `math.radians`. -/
noncomputable def radians (d : ℝ) : ℝ := d * Real.pi / 180

/-- Python `int(x)` on a float: truncation toward zero. -/
noncomputable def pyInt (x : ℝ) : ℤ := if x < 0 then -⌊-x⌋ else ⌊x⌋

/-- Value of one hexadecimal digit, as accepted by Python `int(s, 16)`. -/
def hexVal (c : Char) : Option Nat :=
  if 48 ≤ c.toNat ∧ c.toNat ≤ 57 then some (c.toNat - 48)
  else if 97 ≤ c.toNat ∧ c.toNat ≤ 102 then some (c.toNat - 87)
  else if 65 ≤ c.toNat ∧ c.toNat ≤ 70 then some (c.toNat - 55)
  else none

/-- Python `int(s, 16)` on the plain hexadecimal strings that occur here
(no sign, whitespace or underscores ever reach it in this program); an
empty or non-hexadecimal string raises ValueError, i.e. `none`. -/
def pyIntHex (l : List Char) : Option Nat :=
  if l.isEmpty then none
  else l.foldl (fun acc c =>
    match acc, hexVal c with
    | some a, some d => some (16 * a + d)
    | _, _ => none) (some 0)

/-- Left-pad a digit string with zeros to the given width, as Python
zero-padded format specifiers do. -/
def padZeros (width : Nat) (l : List Char) : List Char :=
  List.replicate (width - l.length) '0' ++ l

/-- Python `f"{v:02x}"`: lowercase hexadecimal, zero-padded to width 2
(the sign of a negative value counts toward the width). -/
def pyHex02 (v : ℤ) : List Char :=
  if v < 0 then '-' :: padZeros 1 (Nat.toDigits 16 v.natAbs)
  else padZeros 2 (Nat.toDigits 16 v.toNat)

/-- The color string `f"#{v:02x}{v:02x}{v:02x}"` built by `Fade.apply`. -/
def mkGray (v : ℤ) : Color :=
  ⟨'#' :: (pyHex02 v ++ pyHex02 v ++ pyHex02 v)⟩

/-- Brightness as read by `Fade.apply`: `int(color[1:3], 16)`, i.e. the
characters at indices 1 and 2 of the color string parsed as hex. -/
def colorBrightness (c : Color) : Option Nat :=
  pyIntHex ((c.data.drop 1).take 2)

/-- The four concrete step dataclasses of the source. -/
inductive AnimationStep : Type where
  | move (dx dy : ℝ)
  | rotate (angle : ℝ)
  | scale (factor : ℝ)
  | fade (brightness : ℤ)

/-- The `apply` method of each step dataclass.  `none` models a raised
exception: `Rotate.apply`/`Scale.apply` divide by `len(shape)` when
computing the centroid (ZeroDivisionError on empty geometry), and
`Fade.apply` parses `color[1:3]` as hex (ValueError on failure). -/
noncomputable def AnimationStep.apply :
    AnimationStep → ShapeData → Color → ℝ → Option (ShapeData × Color)
  | .move dx dy, shape, color, t =>
      some (shape.map (fun p => (p.1 + dx * t, p.2 + dy * t)), color)
  | .rotate angle, shape, color, t =>
      if shape.length = 0 then none
      else
        let theta := radians (angle * t)
        let cx := (shape.map Prod.fst).sum / shape.length
        let cy := (shape.map Prod.snd).sum / shape.length
        some (shape.map (fun p =>
          (cx + (p.1 - cx) * Real.cos theta - (p.2 - cy) * Real.sin theta,
           cy + (p.1 - cx) * Real.sin theta + (p.2 - cy) * Real.cos theta)),
          color)
  | .scale factor, shape, color, t =>
      if shape.length = 0 then none
      else
        let cx := (shape.map Prod.fst).sum / shape.length
        let cy := (shape.map Prod.snd).sum / shape.length
        let s := lerp 1 factor t
        some (shape.map (fun p =>
          (cx + (p.1 - cx) * s, cy + (p.2 - cy) * s)), color)
  | .fade brightness, shape, color, t =>
      match colorBrightness color with
      | none => none
      | some current_val =>
          let new_val := pyInt (lerp (current_val : ℝ) (brightness : ℝ) t)
          some (shape, mkGray new_val)

/-- The `Animation` dataclass: paired step and duration lists plus a
start offset.  The dataclass performs no validation of any kind. -/
structure Animation : Type where
  steps : List AnimationStep := []
  durations : List ℝ := []
  start_time : ℝ := 0

/-- The `Animation.duration` property: `sum(self.durations)`. -/
noncomputable def Animation.duration (a : Animation) : ℝ := a.durations.sum

/-- The `Animation.end_time` property: `start_time + duration`. -/
noncomputable def Animation.end_time (a : Animation) : ℝ :=
  a.start_time + a.duration

/-- The `Shape` dataclass. -/
structure Shape : Type where
  shape_id : String
  points : ShapeData
  color : Color := "#444444"
  animation : Option Animation := none

/-- The inner step walk of `play_scene` (lines 157-177): iterate
`zip(anim.steps, anim.durations)` with a cumulative `time_cursor`,
skipping non-positive durations, clamping the local progress, applying
the step and stopping once the clamped progress is below 1. -/
noncomputable def runSteps :
    List AnimationStep → List ℝ → ShapeData → Color → ℝ → ℝ →
      Option (ShapeData × Color)
  | step :: steps, duration :: durations, points, color, t_anim, time_cursor =>
      if duration ≤ 0 then
        runSteps steps durations points color t_anim time_cursor
      else
        let local_t_raw := (t_anim - time_cursor) / duration
        let local_t := max 0 (min 1 local_t_raw)
        match step.apply points color local_t with
        | none => none
        | some (points2, color2) =>
            if local_t < 1 then some (points2, color2)
            else runSteps steps durations points2 color2 t_anim
                  (time_cursor + duration)
  | _, _, points, color, _, _ => some (points, color)

/-- Render call forwarded to the renderer: `(shape_id, points, color)`. -/
abbrev RenderEvent : Type := String × ShapeData × Color

/-- Activity test of `play_scene` line 151:
`anim.start_time <= now <= anim.end_time` for the shape's animation. -/
def Shape.activeAt (s : Shape) (now : ℝ) : Prop :=
  ∃ a, s.animation = some a ∧ a.start_time ≤ now ∧ now ≤ a.end_time

/-- One pass of the `for shape in shapes` body of `play_scene` at instant
`now`: returns the render events emitted this frame, in shape order,
together with the final value of the `finished` flag; `none` models an
exception escaping the loop.  The source assigns only the local variables
`points`, `color`, `time_cursor`, `finished`; no attribute of any `Shape`
is ever written, so the shape list is left untouched. -/
noncomputable def frameLoop : List Shape → ℝ → Option (List RenderEvent × Bool)
  | [], _ => some ([], true)
  | s :: rest, now =>
      match s.animation with
      | none => frameLoop rest now
      | some anim =>
          if anim.start_time ≤ now ∧ now ≤ anim.end_time then
            match runSteps anim.steps anim.durations s.points s.color
                (now - anim.start_time) 0 with
            | none => none
            | some (points, color) =>
                match frameLoop rest now with
                | none => none
                | some (evs, _) =>
                    some ((s.shape_id, points, color) :: evs, false)
          else frameLoop rest now

/-- Python `max` over a list (raises on an empty list, hence `Option`). -/
noncomputable def pyMax : List ℝ → Option ℝ
  | [] => none
  | x :: xs => some (xs.foldl max x)

/-- The `global_end` computed at line 138 of `play_scene`. -/
noncomputable def globalEnd (shapes : List Shape) : Option ℝ :=
  pyMax ((shapes.filterMap Shape.animation).map Animation.end_time)

/-- The loop-exit test of `play_scene` line 183 at a poll instant:
`finished and now >= global_end`. -/
def exitsAt (shapes : List Shape) (now : ℝ) : Prop :=
  (∃ evs, frameLoop shapes now = some (evs, true)) ∧
  ∃ ge, globalEnd shapes = some ge ∧ ge ≤ now

/-- Playback of `play_scene` over a given list of poll instants: each
frame is computed independently by `frameLoop`; `none` models an
exception aborting the whole invocation. -/
noncomputable def playFrames (shapes : List Shape) :
    List ℝ → Option (List (List RenderEvent))
  | [] => some []
  | now :: rest =>
      match frameLoop shapes now with
      | none => none
      | some (evs, _) => Option.map (evs :: ·) (playFrames shapes rest)

/-- Modelled from the spec: the resolution walk as §4.3 words it — same
cumulative-offset cursor walk as `runSteps`, except that the stop test is
on the RAW local progress (`rawLocalProgress < 1.0`) rather than on the
clamped one used by the code. -/
noncomputable def specReplay :
    List AnimationStep → List ℝ → ShapeData → Color → ℝ → ℝ →
      Option (ShapeData × Color)
  | step :: steps, duration :: durations, points, color, t_anim, time_cursor =>
      if duration ≤ 0 then
        specReplay steps durations points color t_anim time_cursor
      else
        let local_t_raw := (t_anim - time_cursor) / duration
        let local_t := max 0 (min 1 local_t_raw)
        match step.apply points color local_t with
        | none => none
        | some (points2, color2) =>
            if local_t_raw < 1 then some (points2, color2)
            else specReplay steps durations points2 color2 t_anim
                  (time_cursor + duration)
  | _, _, points, color, _, _ => some (points, color)

/-- Modelled from the spec: "the fully-applied composition of every step
in order at progress 1.0 each", starting from the given base state. -/
noncomputable def applyAllAtFull :
    List AnimationStep → ShapeData → Color → Option (ShapeData × Color)
  | [], points, color => some (points, color)
  | step :: steps, points, color =>
      match step.apply points color 1 with
      | none => none
      | some (points2, color2) => applyAllAtFull steps points2 color2

/-- Resolution of one shape at an instant, as the body of `play_scene`
performs it for an active shape (base state in, replay through the
attached animation). -/
noncomputable def shapeResolve (s : Shape) (now : ℝ) :
    Option (ShapeData × Color) :=
  match s.animation with
  | none => some (s.points, s.color)
  | some anim =>
      runSteps anim.steps anim.durations s.points s.color
        (now - anim.start_time) 0

lemma clamp_lt_one_iff (r : ℝ) : max 0 (min 1 r) < 1 ↔ r < 1 := by
  simp [max_lt_iff, min_lt_iff]

lemma runSteps_nil_steps (durations : List ℝ) (points : ShapeData)
    (color : Color) (t_anim time_cursor : ℝ) :
    runSteps [] durations points color t_anim time_cursor =
      some (points, color) := by
  cases durations <;> rfl

lemma runSteps_nil_durations (steps : List AnimationStep) (points : ShapeData)
    (color : Color) (t_anim time_cursor : ℝ) :
    runSteps steps [] points color t_anim time_cursor =
      some (points, color) := by
  cases steps <;> rfl

lemma specReplay_nil_steps (durations : List ℝ) (points : ShapeData)
    (color : Color) (t_anim time_cursor : ℝ) :
    specReplay [] durations points color t_anim time_cursor =
      some (points, color) := by
  cases durations <;> rfl

lemma specReplay_nil_durations (steps : List AnimationStep) (points : ShapeData)
    (color : Color) (t_anim time_cursor : ℝ) :
    specReplay steps [] points color t_anim time_cursor =
      some (points, color) := by
  cases steps <;> rfl

lemma lerp_zero (a b : ℝ) : lerp a b 0 = a := by simp [lerp]

lemma lerp_one (a b : ℝ) : lerp a b 1 = b := by simp [lerp]

lemma pyInt_intCast (v : ℤ) : pyInt (v : ℝ) = v := by
  unfold pyInt
  by_cases h : (v : ℝ) < 0
  · rw [if_pos h, ← Int.cast_neg, Int.floor_intCast, neg_neg]
  · rw [if_neg h, Int.floor_intCast]

/-- The refinement at the heart of the resolution walk: stopping on the
clamped progress (code, line 174) and stopping on the raw progress
(spec §4.3) agree, because `clamp(r, 0, 1) < 1` iff `r < 1`. -/
lemma runSteps_eq_specReplay (steps : List AnimationStep) :
    ∀ (durations : List ℝ) (points : ShapeData) (color : Color)
      (t_anim time_cursor : ℝ),
      runSteps steps durations points color t_anim time_cursor =
        specReplay steps durations points color t_anim time_cursor := by
  induction steps with
  | nil =>
      intro durations points color t_anim time_cursor
      rw [runSteps_nil_steps, specReplay_nil_steps]
  | cons step steps ih =>
      intro durations points color t_anim time_cursor
      cases durations with
      | nil => rw [runSteps_nil_durations, specReplay_nil_durations]
      | cons duration durations =>
          by_cases hd : duration ≤ 0
          · simp only [runSteps, specReplay, if_pos hd]
            exact ih _ _ _ _ _
          · simp only [runSteps, specReplay, if_neg hd]
            cases happ : step.apply points color
                (max 0 (min 1 ((t_anim - time_cursor) / duration))) with
            | none => simp [happ]
            | some pc =>
                obtain ⟨points2, color2⟩ := pc
                simp only [happ]
                by_cases hlt : (t_anim - time_cursor) / duration < 1
                · rw [if_pos ((clamp_lt_one_iff _).mpr hlt), if_pos hlt]
                · rw [if_neg (fun h => hlt ((clamp_lt_one_iff _).mp h)),
                      if_neg hlt]
                  exact ih _ _ _ _ _

lemma frameLoop_nil (now : ℝ) : frameLoop [] now = some ([], true) := rfl

lemma frameLoop_cons_none (s : Shape) (rest : List Shape) (now : ℝ)
    (ha : s.animation = none) :
    frameLoop (s :: rest) now = frameLoop rest now := by
  simp [frameLoop, ha]

lemma frameLoop_cons_inactive (s : Shape) (rest : List Shape) (now : ℝ)
    (anim : Animation) (ha : s.animation = some anim)
    (h : ¬ (anim.start_time ≤ now ∧ now ≤ anim.end_time)) :
    frameLoop (s :: rest) now = frameLoop rest now := by
  simp [frameLoop, ha, h]

lemma frameLoop_cons_active (s : Shape) (rest : List Shape) (now : ℝ)
    (anim : Animation) (ha : s.animation = some anim)
    (h : anim.start_time ≤ now ∧ now ≤ anim.end_time) :
    frameLoop (s :: rest) now =
      match runSteps anim.steps anim.durations s.points s.color
          (now - anim.start_time) 0 with
      | none => none
      | some (points, color) =>
          match frameLoop rest now with
          | none => none
          | some (evs, _) => some ((s.shape_id, points, color) :: evs, false)
    := by
  simp [frameLoop, ha, h]

/-- The `finished` flag of a completed frame is true exactly when no
shape passed the activity test of line 151. -/
lemma frameLoop_finished_iff :
    ∀ (shapes : List Shape) (now : ℝ) (evs : List RenderEvent) (fin : Bool),
      frameLoop shapes now = some (evs, fin) →
      (fin = true ↔ ∀ s ∈ shapes, ¬ s.activeAt now) := by
  intro shapes
  induction shapes with
  | nil =>
      intro now evs fin h
      rw [frameLoop_nil] at h
      simp only [Option.some.injEq, Prod.mk.injEq] at h
      simp [← h.2]
  | cons s rest ih =>
      intro now evs fin h
      cases ha : s.animation with
      | none =>
          rw [frameLoop_cons_none s rest now ha] at h
          have hs : ¬ s.activeAt now := by simp [Shape.activeAt, ha]
          simp [List.forall_mem_cons, hs, ih now evs fin h]
      | some anim =>
          by_cases hact : anim.start_time ≤ now ∧ now ≤ anim.end_time
          · rw [frameLoop_cons_active s rest now anim ha hact] at h
            cases hr : runSteps anim.steps anim.durations s.points s.color
                (now - anim.start_time) 0 with
            | none => rw [hr] at h; exact absurd h (by simp)
            | some pc =>
                obtain ⟨points2, color2⟩ := pc
                rw [hr] at h
                cases hrest : frameLoop rest now with
                | none => rw [hrest] at h; exact absurd h (by simp)
                | some evfin =>
                    rw [hrest] at h
                    simp only [Option.some.injEq, Prod.mk.injEq] at h
                    have hs : s.activeAt now := ⟨anim, ha, hact⟩
                    simp [← h.2, hs]
          · rw [frameLoop_cons_inactive s rest now anim ha hact] at h
            have hs : ¬ s.activeAt now := by
              intro hcon
              obtain ⟨a, haa, hw⟩ := hcon
              rw [ha] at haa
              exact hact (by cases haa; exact hw)
            simp [List.forall_mem_cons, hs, ih now evs fin h]

/-- When every duration is positive and the lists are aligned, the walk
at `t_anim = time_cursor + sum durations` applies every step at clamped
progress exactly 1 and never stops early. -/
lemma runSteps_total_eq_applyAllAtFull (steps : List AnimationStep) :
    ∀ (durations : List ℝ) (points : ShapeData) (color : Color)
      (time_cursor : ℝ),
      steps.length = durations.length →
      (∀ d ∈ durations, 0 < d) →
      runSteps steps durations points color (time_cursor + durations.sum)
          time_cursor =
        applyAllAtFull steps points color := by
  induction steps with
  | nil =>
      intro durations points color time_cursor hlen _
      rw [runSteps_nil_steps]
      rfl
  | cons step steps ih =>
      intro durations points color time_cursor hlen hpos
      cases durations with
      | nil => exact absurd hlen (by simp)
      | cons d ds =>
          have hd : 0 < d := hpos d (by simp)
          have hds : ∀ x ∈ ds, 0 < x := fun x hx => hpos x (by simp [hx])
          have hsum : 0 ≤ ds.sum :=
            List.sum_nonneg (fun x hx => (hds x hx).le)
          have hraw : 1 ≤ (time_cursor + (d :: ds).sum - time_cursor) / d := by
            rw [List.sum_cons, one_le_div hd]
            linarith
          have hclamp :
              max 0 (min 1 ((time_cursor + (d :: ds).sum - time_cursor) / d))
                = 1 := by
            rw [min_eq_left hraw, max_eq_right zero_le_one]
          simp only [runSteps, if_neg (not_le.mpr hd), hclamp]
          cases happ : step.apply points color 1 with
          | none => simp [applyAllAtFull, happ]
          | some pc =>
              obtain ⟨points2, color2⟩ := pc
              simp only [applyAllAtFull, happ, if_neg (lt_irrefl (1 : ℝ))]
              have harith : time_cursor + (d :: ds).sum =
                  (time_cursor + d) + ds.sum := by
                rw [List.sum_cons]; ring
              rw [harith]
              exact ih ds points2 color2 (time_cursor + d)
                (by simpa using hlen) hds

/-- The walk only ever consumes `zip(steps, durations)`: both lists may
be truncated to their common length without changing the result. -/
lemma runSteps_zip_trunc (steps : List AnimationStep) :
    ∀ (durations : List ℝ) (points : ShapeData) (color : Color)
      (t_anim time_cursor : ℝ),
      runSteps steps durations points color t_anim time_cursor =
        runSteps (steps.take (min steps.length durations.length))
          (durations.take (min steps.length durations.length))
          points color t_anim time_cursor := by
  induction steps with
  | nil =>
      intro durations points color t_anim time_cursor
      rw [runSteps_nil_steps]
      simp [runSteps_nil_steps]
  | cons step steps ih =>
      intro durations points color t_anim time_cursor
      cases durations with
      | nil => simp [runSteps_nil_durations]
      | cons d ds =>
          have hmin : min (step :: steps).length (d :: ds).length =
              min steps.length ds.length + 1 := by
            simp [Nat.succ_min_succ]
          rw [hmin]
          simp only [List.take_succ_cons]
          by_cases hd : d ≤ 0
          · simp only [runSteps, if_pos hd]
            exact ih _ _ _ _ _
          · simp only [runSteps, if_neg hd]
            cases happ : step.apply points color
                (max 0 (min 1 ((t_anim - time_cursor) / d))) with
            | none => simp [happ]
            | some pc =>
                obtain ⟨points2, color2⟩ := pc
                simp only [happ]
                by_cases hlt : max 0 (min 1 ((t_anim - time_cursor) / d)) < 1
                · rw [if_pos hlt, if_pos hlt]
                · rw [if_neg hlt, if_neg hlt]
                  exact ih _ _ _ _ _

set_option maxRecDepth 8000 in
/-- Reading back the brightness of a gray produced by `Fade.apply`:
for byte values the parse of the first channel returns the value. -/
lemma colorBrightness_mkGray :
    ∀ v : Nat, v < 256 → colorBrightness (mkGray (v : ℤ)) = some v := by
  decide

/-- The `Fade.apply` computation in one equation: read the brightness
from the input color, interpolate, truncate, rebuild a gray string. -/
lemma fade_apply_eq (b : ℤ) (g : ShapeData) (c : Color) (t : ℝ) (v : Nat)
    (hv : colorBrightness c = some v) :
    (AnimationStep.fade b).apply g c t =
      some (g, mkGray (pyInt (lerp (v : ℝ) (b : ℝ) t))) := by
  simp only [AnimationStep.apply, hv]

/-- The `Fade.apply` call raises ValueError when the brightness parse
fails. -/
lemma fade_apply_none (b : ℤ) (g : ShapeData) (c : Color) (t : ℝ)
    (hv : colorBrightness c = none) :
    (AnimationStep.fade b).apply g c t = none := by
  simp only [AnimationStep.apply, hv]

lemma move_apply_zero (dx dy : ℝ) (g : ShapeData) (c : Color) :
    (AnimationStep.move dx dy).apply g c 0 = some (g, c) := by
  simp [AnimationStep.apply]

lemma rotate_apply_zero (angle : ℝ) (g : ShapeData) (c : Color)
    (hg : g ≠ []) :
    (AnimationStep.rotate angle).apply g c 0 = some (g, c) := by
  have hlen : g.length ≠ 0 := by simpa using hg
  simp only [AnimationStep.apply, if_neg hlen]
  rw [mul_zero, show radians 0 = 0 by simp [radians]]
  simp only [Real.cos_zero, Real.sin_zero, mul_one, mul_zero, sub_zero,
    add_zero, Option.some.injEq, Prod.mk.injEq]
  refine ⟨?_, trivial⟩
  have : ∀ p : Point,
      ((g.map Prod.fst).sum / (g.length : ℝ) +
        (p.1 - (g.map Prod.fst).sum / (g.length : ℝ)),
       (g.map Prod.snd).sum / (g.length : ℝ) +
        (p.2 - (g.map Prod.snd).sum / (g.length : ℝ))) = p := by
    intro p
    simp
  calc g.map _ = g.map id := List.map_congr_left (fun p _ => this p)
    _ = g := List.map_id g

lemma scale_apply_zero (factor : ℝ) (g : ShapeData) (c : Color)
    (hg : g ≠ []) :
    (AnimationStep.scale factor).apply g c 0 = some (g, c) := by
  have hlen : g.length ≠ 0 := by simpa using hg
  simp only [AnimationStep.apply, if_neg hlen]
  rw [show lerp 1 factor 0 = 1 from lerp_zero 1 factor]
  simp only [mul_one, Option.some.injEq, Prod.mk.injEq]
  refine ⟨?_, trivial⟩
  have : ∀ p : Point,
      ((g.map Prod.fst).sum / (g.length : ℝ) +
        (p.1 - (g.map Prod.fst).sum / (g.length : ℝ)),
       (g.map Prod.snd).sum / (g.length : ℝ) +
        (p.2 - (g.map Prod.snd).sum / (g.length : ℝ))) = p := by
    intro p
    simp
  calc g.map _ = g.map id := List.map_congr_left (fun p _ => this p)
    _ = g := List.map_id g

lemma rotate_apply_empty (angle : ℝ) (c : Color) (t : ℝ) :
    (AnimationStep.rotate angle).apply [] c t = none := by
  simp [AnimationStep.apply]

lemma scale_apply_empty (factor : ℝ) (c : Color) (t : ℝ) :
    (AnimationStep.scale factor).apply [] c t = none := by
  simp [AnimationStep.apply]

/-- Two-shape scene of the termination scenario: active windows `[0, 1]`
and `[2, 3]`, each a single `Move(1, 0)` over one second. -/
noncomputable def animWindow01 : Animation :=
  { steps := [.move 1 0], durations := [1], start_time := 0 }

/-- Second animation of the termination scenario, window `[2, 3]`. -/
noncomputable def animWindow23 : Animation :=
  { steps := [.move 1 0], durations := [1], start_time := 2 }

/-- The scene of the termination scenario. -/
noncomputable def sceneTwoWindows : List Shape :=
  [{ shape_id := "s1", points := [(0, 0)], animation := some animWindow01 },
   { shape_id := "s2", points := [(0, 0)], animation := some animWindow23 }]

lemma animWindow01_end : animWindow01.end_time = 1 := by
  norm_num [animWindow01, Animation.end_time, Animation.duration]

lemma animWindow23_end : animWindow23.end_time = 3 := by
  norm_num [animWindow23, Animation.end_time, Animation.duration]

lemma globalEnd_sceneTwoWindows : globalEnd sceneTwoWindows = some 3 := by
  simp [globalEnd, sceneTwoWindows, pyMax, animWindow01_end, animWindow23_end]

lemma frameLoop_sceneTwoWindows_gap (now : ℝ) (h1 : 1 < now) (h2 : now < 2) :
    frameLoop sceneTwoWindows now = some ([], true) := by
  rw [show sceneTwoWindows =
    [{ shape_id := "s1", points := [(0, 0)], color := "#444444",
        animation := some animWindow01 },
     { shape_id := "s2", points := [(0, 0)], color := "#444444",
        animation := some animWindow23 }] from rfl]
  rw [frameLoop_cons_inactive _ _ _ animWindow01 rfl
    (by rw [animWindow01_end]; intro hc; linarith [hc.2])]
  rw [frameLoop_cons_inactive _ _ _ animWindow23 rfl
    (by intro hc; have : (2:ℝ) ≤ now := by simpa [animWindow23] using hc.1
        linarith)]
  exact frameLoop_nil now

lemma frameLoop_sceneTwoWindows_late (now : ℝ) (h3 : 3 < now) :
    frameLoop sceneTwoWindows now = some ([], true) := by
  rw [show sceneTwoWindows =
    [{ shape_id := "s1", points := [(0, 0)], color := "#444444",
        animation := some animWindow01 },
     { shape_id := "s2", points := [(0, 0)], color := "#444444",
        animation := some animWindow23 }] from rfl]
  rw [frameLoop_cons_inactive _ _ _ animWindow01 rfl
    (by rw [animWindow01_end]; intro hc; linarith [hc.2])]
  rw [frameLoop_cons_inactive _ _ _ animWindow23 rfl
    (by rw [animWindow23_end]; intro hc; linarith [hc.2])]
  exact frameLoop_nil now

lemma frameLoop_sceneTwoWindows_at_three :
    frameLoop sceneTwoWindows 3 =
      some ([("s2", [((1 : ℝ), (0 : ℝ))], "#444444")], false) := by
  rw [show sceneTwoWindows =
    [{ shape_id := "s1", points := [(0, 0)], color := "#444444",
        animation := some animWindow01 },
     { shape_id := "s2", points := [(0, 0)], color := "#444444",
        animation := some animWindow23 }] from rfl]
  rw [frameLoop_cons_inactive _ _ _ animWindow01 rfl
    (by rw [animWindow01_end]; intro hc; linarith [hc.2])]
  rw [frameLoop_cons_active _ _ _ animWindow23 rfl
    (by rw [animWindow23_end]; norm_num [animWindow23])]
  have hclamp : max 0 (min 1 (((3 : ℝ) - animWindow23.start_time - 0) / 1))
      = 1 := by
    norm_num [animWindow23]
  have hwalk : runSteps animWindow23.steps animWindow23.durations
      [((0 : ℝ), (0 : ℝ))] "#444444" (3 - animWindow23.start_time) 0 =
      some ([((1 : ℝ), (0 : ℝ))], "#444444") := by
    rw [show animWindow23.steps = [.move 1 0] from rfl,
        show animWindow23.durations = [(1 : ℝ)] from rfl]
    simp only [runSteps, if_neg (by norm_num : ¬ (1 : ℝ) ≤ 0)]
    rw [show ((3 : ℝ) - animWindow23.start_time - 0) / 1 = 1 by
      norm_num [animWindow23]]
    norm_num [AnimationStep.apply, runSteps_nil_steps]
  rw [hwalk]
  rw [frameLoop_nil]

lemma playFrames_nil (shapes : List Shape) : playFrames shapes [] = some [] :=
  rfl

lemma playFrames_cons (shapes : List Shape) (now : ℝ) (rest : List ℝ) :
    playFrames shapes (now :: rest) =
      match frameLoop shapes now with
      | none => none
      | some (evs, _) => Option.map (evs :: ·) (playFrames shapes rest) :=
  rfl

/-- Frames are computed independently of one another: playback over the
concatenation of two instant lists is the concatenation of the two
playbacks (no state is carried from frame to frame). -/
lemma playFrames_append (shapes : List Shape) (ts1 ts2 : List ℝ) :
    playFrames shapes (ts1 ++ ts2) =
      match playFrames shapes ts1, playFrames shapes ts2 with
      | some a, some b => some (a ++ b)
      | _, _ => none := by
  induction ts1 with
  | nil =>
      rw [List.nil_append, playFrames_nil]
      cases playFrames shapes ts2 <;> rfl
  | cons t ts ih =>
      rw [List.cons_append, playFrames_cons, playFrames_cons]
      cases frameLoop shapes t with
      | none => rfl
      | some evfin =>
          obtain ⟨evs, f⟩ := evfin
          simp only [ih]
          cases playFrames shapes ts <;> cases playFrames shapes ts2 <;> simp


lemma playFrames_error (shapes : List Shape) (ts : List ℝ) (t : ℝ)
    (ht : t ∈ ts) (he : frameLoop shapes t = none) :
    playFrames shapes ts = none := by
  induction ts with
  | nil => cases ht
  | cons t0 rest ih =>
      rw [playFrames_cons]
      rcases List.mem_cons.mp ht with rfl | hmem
      · rw [he]
      · cases hf : frameLoop shapes t0 with
        | none => rfl
        | some evfin =>
            obtain ⟨evs, f⟩ := evfin
            simp [ih hmem]

lemma playFrames_replicate (shapes : List Shape) (t : ℝ)
    (evs : List RenderEvent) (f : Bool)
    (h : frameLoop shapes t = some (evs, f)) :
    ∀ n, playFrames shapes (List.replicate n t) =
      some (List.replicate n evs) := by
  intro n
  induction n with
  | zero => rfl
  | succ n ih =>
      rw [List.replicate_succ, playFrames_cons, h, ih]
      simp [List.replicate_succ]

lemma frameLoop_error_of_mem (now : ℝ) (s : Shape) :
    ∀ (shapes : List Shape), s ∈ shapes → s.activeAt now →
      shapeResolve s now = none → frameLoop shapes now = none := by
  intro shapes
  induction shapes with
  | nil => intro hs; cases hs
  | cons s0 rest ih =>
      intro hs hact he
      rcases List.mem_cons.mp hs with rfl | hmem
      · obtain ⟨anim, ha, hw⟩ := hact
        simp only [shapeResolve, ha] at he
        rw [frameLoop_cons_active _ rest now anim ha hw, he]
      · cases ha : s0.animation with
        | none =>
            rw [frameLoop_cons_none _ _ _ ha]
            exact ih hmem hact he
        | some anim =>
            by_cases hw : anim.start_time ≤ now ∧ now ≤ anim.end_time
            · rw [frameLoop_cons_active _ _ _ anim ha hw]
              cases hr : runSteps anim.steps anim.durations s0.points
                  s0.color (now - anim.start_time) 0 with
              | none => rfl
              | some pc =>
                  obtain ⟨p2, c2⟩ := pc
                  rw [ih hmem hact he]
            · rw [frameLoop_cons_inactive _ _ _ anim ha hw]
              exact ih hmem hact he

lemma colorBrightness_mkGray_int (v : ℤ) (h0 : 0 ≤ v) (h1 : v < 256) :
    colorBrightness (mkGray v) = some v.toNat := by
  have h := colorBrightness_mkGray v.toNat (by omega)
  rwa [Int.toNat_of_nonneg h0] at h

/-- Modelled from the spec: "totalDuration = sum of durations (… steps
with duration ≤ 0 … contribute zero length)", i.e. the sum of the
positive durations only. -/
noncomputable def positiveDurationSum : List ℝ → ℝ
  | [] => 0
  | d :: rest =>
      if 0 < d then d + positiveDurationSum rest else positiveDurationSum rest

lemma sum_eq_positiveDurationSum_of_nonneg :
    ∀ l : List ℝ, (∀ d ∈ l, 0 ≤ d) → l.sum = positiveDurationSum l := by
  intro l
  induction l with
  | nil => intro _; rfl
  | cons d rest ih =>
      intro h
      have hrest := ih (fun x hx => h x (by simp [hx]))
      by_cases hd : 0 < d
      · rw [List.sum_cons, positiveDurationSum, if_pos hd, hrest]
      · have : d = 0 := le_antisymm (not_lt.mp hd) (h d (by simp))
        rw [List.sum_cons, positiveDurationSum, if_neg hd, hrest, this,
          zero_add]

/-- Sample animation used in concrete witnesses: Move(10, 0) over one
second, starting at t = 0. -/
noncomputable def wAnim : Animation :=
  { steps := [.move 10 0], durations := [1], start_time := 0 }

/-- Sample shape carrying `wAnim`. -/
noncomputable def wShape : Shape :=
  { shape_id := "w", points := [(0, 0), (10, 0), (10, 10), (0, 10)],
    animation := some wAnim }

/-- C1: for a shape whose attached timeline is active at `now`
(startTime ≤ now ≤ endTime), the (geometry, color) the frame forwards to
the renderer is exactly the spec's full replay from the shape's base
points and base color: the (step, duration) pairs are walked in order
with a cumulative cursor starting at 0, pairs with duration ≤ 0 are
skipped without moving the cursor, each step is applied at progress
clamp((now − startTime − cursor)/duration, 0, 1), and the walk stops
after the first step whose raw progress is < 1.0.  The code stops on the
clamped progress; `runSteps_eq_specReplay` shows this is the same test. -/
theorem c1_active_render_is_spec_replay (s : Shape) (rest : List Shape)
    (anim : Animation) (now : ℝ)
    (ha : s.animation = some anim)
    (h1 : anim.start_time ≤ now) (h2 : now ≤ anim.end_time) :
    frameLoop (s :: rest) now =
      match specReplay anim.steps anim.durations s.points s.color
          (now - anim.start_time) 0 with
      | none => none
      | some (points, color) =>
          match frameLoop rest now with
          | none => none
          | some (evs, _) =>
              some ((s.shape_id, points, color) :: evs, false) := by
  rw [frameLoop_cons_active s rest now anim ha ⟨h1, h2⟩,
      runSteps_eq_specReplay]

/-- Witness for C1 at a concrete active instant. -/
theorem c1_active_render_is_spec_replay_witness :
    wShape.animation = some wAnim ∧
    wAnim.start_time ≤ (1/2 : ℝ) ∧ (1/2 : ℝ) ≤ wAnim.end_time ∧
    frameLoop [wShape] (1/2) =
      match specReplay wAnim.steps wAnim.durations wShape.points
          wShape.color ((1/2 : ℝ) - wAnim.start_time) 0 with
      | none => none
      | some (points, color) =>
          match frameLoop [] (1/2 : ℝ) with
          | none => none
          | some (evs, _) =>
              some ((wShape.shape_id, points, color) :: evs, false) := by
  have hs : wAnim.start_time ≤ (1/2 : ℝ) := by norm_num [wAnim]
  have he : (1/2 : ℝ) ≤ wAnim.end_time := by
    norm_num [wAnim, Animation.end_time, Animation.duration]
  exact ⟨rfl, hs, he,
    c1_active_render_is_spec_replay wShape [] wAnim (1/2) rfl hs he⟩

/-- C2 counterexample: at the poll instant now = 3 = globalEnd the second
shape is still active under the inclusive bound, so the loop-exit test
`finished and now >= global_end` is false although now ≥ 3 — the claim's
"it exits once now ≥ 3" fails at exactly now = 3. -/
theorem c2_counterexample :
    globalEnd sceneTwoWindows = some 3 ∧ (3 : ℝ) ≤ 3 ∧
      ¬ exitsAt sceneTwoWindows 3 := by
  refine ⟨globalEnd_sceneTwoWindows, le_refl 3, ?_⟩
  intro hcon
  obtain ⟨⟨evs, hevs⟩, _⟩ := hcon
  rw [frameLoop_sceneTwoWindows_at_three] at hevs
  simp at hevs

/-- C2 (amended): the loop exits at a poll instant exactly when no shape
is active there and now ≥ globalEnd.  In the two-window scenario the loop
therefore never exits in the gap (1, 2) — even though no shape is active
there — and exits at every poll instant now > 3 (at exactly now = 3 the
second window is still active and one more frame is rendered first). -/
theorem c2_exit_characterization :
    (∀ (shapes : List Shape) (now : ℝ) (evs : List RenderEvent) (f : Bool),
        frameLoop shapes now = some (evs, f) →
        (f = true ↔ ∀ s ∈ shapes, ¬ s.activeAt now)) ∧
    (∀ now : ℝ, 1 < now → now < 2 →
        frameLoop sceneTwoWindows now = some ([], true) ∧
        ¬ exitsAt sceneTwoWindows now) ∧
    (∀ now : ℝ, 3 < now → exitsAt sceneTwoWindows now) := by
  refine ⟨frameLoop_finished_iff, ?_, ?_⟩
  · intro now h1 h2
    refine ⟨frameLoop_sceneTwoWindows_gap now h1 h2, ?_⟩
    intro hcon
    obtain ⟨_, ge, hge, hle⟩ := hcon
    rw [globalEnd_sceneTwoWindows] at hge
    cases hge
    linarith
  · intro now h3
    exact ⟨⟨[], frameLoop_sceneTwoWindows_late now h3⟩,
      3, globalEnd_sceneTwoWindows, by linarith⟩

/-- Witness for C2 at concrete poll instants 3/2 (gap) and 4 (past all
windows). -/
theorem c2_exit_characterization_witness :
    ((1 : ℝ) < 3/2 ∧ (3/2 : ℝ) < 2 ∧
      ¬ exitsAt sceneTwoWindows (3/2)) ∧
    ((3 : ℝ) < 4 ∧ exitsAt sceneTwoWindows 4) := by
  constructor
  · exact ⟨by norm_num, by norm_num,
      (c2_exit_characterization.2.1 (3/2) (by norm_num) (by norm_num)).2⟩
  · exact ⟨by norm_num, c2_exit_characterization.2.2 4 (by norm_num)⟩

/-- Animation with a negative duration, for the C3 counterexample. -/
noncomputable def negDurAnim : Animation :=
  { steps := [.move 1 0, .move 0 1], durations := [1, -(1/2)],
    start_time := 0 }

/-- C3 counterexample: `Animation.duration` is the plain `sum(durations)`
— a negative duration is NOT treated as contributing zero length, so the
timeline with durations [1, -1/2] reports total 1/2, not the
positives-only 1 the claim asserts. -/
theorem c3_counterexample :
    negDurAnim.duration = 1/2 ∧
    positiveDurationSum negDurAnim.durations = 1 ∧
    negDurAnim.duration ≠ positiveDurationSum negDurAnim.durations := by
  have h1 : negDurAnim.duration = 1/2 := by
    norm_num [negDurAnim, Animation.duration]
  have h2 : positiveDurationSum negDurAnim.durations = 1 := by
    rw [show negDurAnim.durations = [1, -(1/2)] from rfl]
    rw [positiveDurationSum, if_pos (by norm_num : (0:ℝ) < 1),
        positiveDurationSum, if_neg (by norm_num : ¬ (0:ℝ) < -(1/2))]
    norm_num [positiveDurationSum]
  exact ⟨h1, h2, by rw [h1, h2]; norm_num⟩

/-- C3 (amended): `duration` is the plain sum of the durations list
(negative entries subtract from it) and `end_time = start_time + that
sum`; only when no duration is negative does it coincide with the
positives-only total in which zero-length steps contribute nothing. -/
theorem c3_duration_plain_sum :
    (∀ a : Animation, a.duration = a.durations.sum ∧
        a.end_time = a.start_time + a.durations.sum) ∧
    (∀ a : Animation, (∀ d ∈ a.durations, 0 ≤ d) →
        a.duration = positiveDurationSum a.durations) := by
  refine ⟨fun a => ⟨rfl, rfl⟩, fun a h => ?_⟩
  rw [Animation.duration, sum_eq_positiveDurationSum_of_nonneg a.durations h]

/-- Witness for C3 on the all-nonnegative duration list [1, 0, 2]. -/
theorem c3_duration_plain_sum_witness :
    (∀ d ∈ ([1, 0, 2] : List ℝ), 0 ≤ d) ∧
    (Animation.mk [] [1, 0, 2] 0).duration =
      positiveDurationSum [1, 0, 2] := by
  have h : ∀ d ∈ ([1, 0, 2] : List ℝ), 0 ≤ d := by
    intro d hd
    simp only [List.mem_cons, List.not_mem_nil, or_false] at hd
    rcases hd with rfl | rfl | rfl <;> norm_num
  exact ⟨h, c3_duration_plain_sum.2 (Animation.mk [] [1, 0, 2] 0) h⟩

/-- Animation with a single zero-duration step, for the C4
counterexample. -/
noncomputable def zeroDurAnim : Animation :=
  { steps := [.move 1 0], durations := [0], start_time := 0 }

/-- C4 counterexample: a timeline holding one Move(1,0) step of duration
0 resolves at now = endTime = 0 to the untouched base state (the step is
skipped), while "every step applied at progress 1.0" would move the
point — so the claim fails as soon as a duration ≤ 0 step is present. -/
theorem c4_counterexample :
    zeroDurAnim.end_time = 0 ∧
    runSteps zeroDurAnim.steps zeroDurAnim.durations
        [((0 : ℝ), (0 : ℝ))] "#444444" (0 - zeroDurAnim.start_time) 0 =
      some ([(0, 0)], "#444444") ∧
    applyAllAtFull zeroDurAnim.steps [((0 : ℝ), (0 : ℝ))] "#444444" =
      some ([(1, 0)], "#444444") ∧
    (some ([((0 : ℝ), (0 : ℝ))], ("#444444" : Color)) :
        Option (ShapeData × Color)) ≠ some ([(1, 0)], "#444444") := by
  refine ⟨by norm_num [zeroDurAnim, Animation.end_time, Animation.duration],
    ?_, ?_, by norm_num [Prod.ext_iff]⟩
  · rw [show zeroDurAnim.steps = [.move 1 0] from rfl,
        show zeroDurAnim.durations = [(0 : ℝ)] from rfl]
    simp [runSteps]
  · simp only [applyAllAtFull, AnimationStep.apply]
    norm_num

/-- C4 (amended): for a shape with an attached timeline whose step and
duration lists are aligned and whose durations are all positive,
resolving at now = endTime yields the composition of every step in
order, each applied at progress exactly 1.0, from the base state. -/
theorem c4_end_time_full_composition (s : Shape) (anim : Animation)
    (_ha : s.animation = some anim)
    (hlen : anim.steps.length = anim.durations.length)
    (hpos : ∀ d ∈ anim.durations, 0 < d) :
    runSteps anim.steps anim.durations s.points s.color
        (anim.end_time - anim.start_time) 0 =
      applyAllAtFull anim.steps s.points s.color := by
  have h0 : anim.end_time - anim.start_time = 0 + anim.durations.sum := by
    rw [Animation.end_time, Animation.duration]; ring
  rw [h0]
  exact runSteps_total_eq_applyAllAtFull anim.steps anim.durations
    s.points s.color 0 hlen hpos

/-- Witness for C4 on the sample Move(10, 0)-over-1s shape. -/
theorem c4_end_time_full_composition_witness :
    wShape.animation = some wAnim ∧
    wAnim.steps.length = wAnim.durations.length ∧
    (∀ d ∈ wAnim.durations, 0 < d) ∧
    runSteps wAnim.steps wAnim.durations wShape.points wShape.color
        (wAnim.end_time - wAnim.start_time) 0 =
      applyAllAtFull wAnim.steps wShape.points wShape.color := by
  have hlen : wAnim.steps.length = wAnim.durations.length := by
    simp [wAnim]
  have hpos : ∀ d ∈ wAnim.durations, 0 < d := by
    intro d hd
    rw [show wAnim.durations = [(1 : ℝ)] from rfl] at hd
    simp only [List.mem_cons, List.not_mem_nil, or_false] at hd
    rw [hd]; norm_num
  exact ⟨rfl, hlen, hpos,
    c4_end_time_full_composition wShape wAnim rfl hlen hpos⟩

/-- C5 counterexample: on the empty geometry, Rotate.apply at progress 0
raises (ZeroDivisionError in the centroid) instead of returning the
input unchanged, so "apply(g, c, 0) returns the input for every
geometry" fails at g = []. -/
theorem c5_counterexample :
    (AnimationStep.rotate 0).apply [] "#444444" 0 = none ∧
    (none : Option (ShapeData × Color)) ≠ some ([], "#444444") := by
  exact ⟨rotate_apply_empty 0 "#444444" 0, by simp⟩

/-- C5 (amended): local progress 0 is a no-op for every step kind on the
inputs on which `apply` returns at all: any geometry for Move, any
NONEMPTY geometry for Rotate and Scale (the empty geometry raises), and
any canonically encoded achromatic color for Fade — Move adds zero
displacement, Rotate rotates by 0°, Scale uses scale lerp(1, f, 0) = 1,
Fade rebuilds the color at its current brightness. -/
theorem c5_progress_zero_identity :
    (∀ (dx dy : ℝ) (g : ShapeData) (c : Color),
        (AnimationStep.move dx dy).apply g c 0 = some (g, c)) ∧
    (∀ (angle : ℝ) (g : ShapeData) (c : Color), g ≠ [] →
        (AnimationStep.rotate angle).apply g c 0 = some (g, c)) ∧
    (∀ (factor : ℝ) (g : ShapeData) (c : Color), g ≠ [] →
        (AnimationStep.scale factor).apply g c 0 = some (g, c)) ∧
    (∀ (b v : ℤ) (g : ShapeData), 0 ≤ v → v < 256 →
        (AnimationStep.fade b).apply g (mkGray v) 0 = some (g, mkGray v)) := by
  refine ⟨move_apply_zero, rotate_apply_zero, scale_apply_zero, ?_⟩
  intro b v g h0 h1
  rw [fade_apply_eq b g (mkGray v) 0 v.toNat
    (colorBrightness_mkGray_int v h0 h1), lerp_zero]
  have hcast : ((v.toNat : ℕ) : ℝ) = ((v : ℤ) : ℝ) := by
    rw [← Int.cast_natCast, Int.toNat_of_nonneg h0]
  rw [hcast, pyInt_intCast]

/-- Witness for C5 on a one-point geometry and the gray of brightness
64 = 0x40. -/
theorem c5_progress_zero_identity_witness :
    (([((1 : ℝ), (2 : ℝ))] : ShapeData) ≠ []) ∧
    (AnimationStep.rotate 30).apply [((1 : ℝ), (2 : ℝ))] "#404040" 0 =
      some ([(1, 2)], "#404040") ∧
    (AnimationStep.scale 2).apply [((1 : ℝ), (2 : ℝ))] "#404040" 0 =
      some ([(1, 2)], "#404040") ∧
    ((0 : ℤ) ≤ 64 ∧ (64 : ℤ) < 256) ∧
    (AnimationStep.fade 7).apply [] (mkGray 64) 0 = some ([], mkGray 64) := by
  refine ⟨by simp, ?_, ?_, ⟨by norm_num, by norm_num⟩, ?_⟩
  · exact c5_progress_zero_identity.2.1 30 [((1 : ℝ), (2 : ℝ))] "#404040"
      (by simp)
  · exact c5_progress_zero_identity.2.2.1 2 [((1 : ℝ), (2 : ℝ))] "#404040"
      (by simp)
  · exact c5_progress_zero_identity.2.2.2 7 64 [] (by norm_num) (by norm_num)

lemma runSteps_single_fade (b : ℤ) (g : ShapeData) (c : Color) (v : ℕ)
    (hv : colorBrightness c = some v) (d t_anim : ℝ) (hd : 0 < d) :
    runSteps [.fade b] [d] g c t_anim 0 =
      some (g, mkGray (pyInt (lerp (v : ℝ) (b : ℝ)
        (max 0 (min 1 ((t_anim - 0) / d)))))) := by
  simp only [runSteps, if_neg (not_le.mpr hd)]
  rw [fade_apply_eq b g c _ v hv]
  by_cases hp : max 0 (min 1 ((t_anim - 0) / d)) < 1
  · simp [hp]
  · simp [hp, runSteps_nil_steps]

lemma pyInt_zero : pyInt 0 = 0 := by
  simpa using pyInt_intCast 0

lemma pyInt_half255 : pyInt (255 / 2 : ℝ) = 127 := by
  rw [pyInt, if_neg (by norm_num : ¬ (255 / 2 : ℝ) < 0),
    Int.floor_eq_iff]
  constructor <;> norm_num

/-- C6: the Fade(0)-over-1s scenario from a shape at brightness 255
("#ffffff"): resolving at now = 0.5 gives brightness 127 = 0x7f (within
the claim's "127 or 128"), at every now ≥ 1.0 exactly 0 ("#000000"); and
in general Fade.apply reads the current brightness from the input color,
computes int(lerp(current, target, t)), and returns an achromatic color
at that intensity with the geometry unchanged. -/
theorem c6_fade_scenario :
    (runSteps [.fade 0] [1] [((0 : ℝ), (0 : ℝ))] "#ffffff" (1/2) 0 =
        some ([(0, 0)], "#7f7f7f") ∨
     runSteps [.fade 0] [1] [((0 : ℝ), (0 : ℝ))] "#ffffff" (1/2) 0 =
        some ([(0, 0)], "#808080")) ∧
    (∀ now : ℝ, 1 ≤ now →
      runSteps [.fade 0] [1] [((0 : ℝ), (0 : ℝ))] "#ffffff" now 0 =
        some ([(0, 0)], "#000000")) ∧
    (∀ (b : ℤ) (g : ShapeData) (c : Color) (t : ℝ) (v : ℕ),
      colorBrightness c = some v →
      (AnimationStep.fade b).apply g c t =
        some (g, mkGray (pyInt (lerp (v : ℝ) (b : ℝ) t)))) := by
  have hbr : colorBrightness "#ffffff" = some 255 := by decide
  refine ⟨Or.inl ?_, ?_, fun b g c t v hv => fade_apply_eq b g c t v hv⟩
  · rw [runSteps_single_fade 0 _ _ 255 hbr 1 (1/2) (by norm_num)]
    have hclamp : max 0 (min 1 (((1 : ℝ)/2 - 0) / 1)) = 1/2 := by
      rw [show ((1 : ℝ)/2 - 0) / 1 = 1/2 by norm_num,
        min_eq_right (by norm_num : (1 : ℝ)/2 ≤ 1),
        max_eq_right (by norm_num : (0 : ℝ) ≤ 1/2)]
    rw [hclamp]
    have hlerp : lerp ((255 : ℕ) : ℝ) ((0 : ℤ) : ℝ) (1/2) = 255 / 2 := by
      rw [lerp]; push_cast; ring
    rw [hlerp, pyInt_half255]
    rw [show mkGray 127 = "#7f7f7f" from by decide]
  · intro now h1
    rw [runSteps_single_fade 0 _ _ 255 hbr 1 now (by norm_num)]
    have hclamp : max 0 (min 1 ((now - 0) / 1)) = 1 := by
      rw [show (now - 0) / 1 = now by ring, min_eq_left h1,
        max_eq_right zero_le_one]
    rw [hclamp]
    have hlerp : lerp ((255 : ℕ) : ℝ) ((0 : ℤ) : ℝ) 1 = 0 := by
      rw [lerp_one]; push_cast; ring
    rw [hlerp, pyInt_zero]
    rw [show mkGray 0 = "#000000" from by decide]

/-- Witness for C6: the symbolic conjuncts applied at now = 2 and at a
concrete chromatic-free call. -/
theorem c6_fade_scenario_witness :
    ((1 : ℝ) ≤ 2 ∧
      runSteps [.fade 0] [1] [((0 : ℝ), (0 : ℝ))] "#ffffff" 2 0 =
        some ([(0, 0)], "#000000")) ∧
    (colorBrightness "#404040" = some 64 ∧
      (AnimationStep.fade 7).apply [] "#404040" 1 =
        some ([], mkGray (pyInt (lerp ((64 : ℕ) : ℝ) ((7 : ℤ) : ℝ) 1)))) := by
  refine ⟨⟨by norm_num, c6_fade_scenario.2.1 2 (by norm_num)⟩,
    ⟨by decide, c6_fade_scenario.2.2 7 [] "#404040" 1 64 (by decide)⟩⟩

/-- Animation with one step and no durations, for C7. -/
noncomputable def mismatchedAnim : Animation :=
  { steps := [.move 1 0], durations := [], start_time := 0 }

/-- C7 counterexample: an Animation whose step and duration lists have
different lengths is accepted by the dataclass (no validation exists)
and resolves without error — `zip` silently drops the extra step — so
"rejected at construction rather than accepted and resolved" is false. -/
theorem c7_counterexample :
    mismatchedAnim.steps.length ≠ mismatchedAnim.durations.length ∧
    runSteps mismatchedAnim.steps mismatchedAnim.durations
        [((0 : ℝ), (0 : ℝ))] "#444444" 0 0 =
      some ([(0, 0)], "#444444") := by
  constructor
  · simp [mismatchedAnim]
  · rw [show mismatchedAnim.steps = [.move 1 0] from rfl,
        show mismatchedAnim.durations = ([] : List ℝ) from rfl,
        runSteps_nil_durations]

/-- C7 (amended): construction performs no validation; during resolution
the walk consumes `zip(steps, durations)`, i.e. both lists behave as if
truncated to their common length, the excess of the longer list being
silently ignored. -/
theorem c7_mismatch_zip_truncation (a : Animation) (points : ShapeData)
    (color : Color) (t_anim time_cursor : ℝ) :
    runSteps a.steps a.durations points color t_anim time_cursor =
      runSteps (a.steps.take (min a.steps.length a.durations.length))
        (a.durations.take (min a.steps.length a.durations.length))
        points color t_anim time_cursor :=
  runSteps_zip_trunc a.steps a.durations points color t_anim time_cursor

/-- C8: Rotate.apply and Scale.apply on the empty geometry raise
immediately (the centroid divides by len(shape) = 0); the error
propagates out of the frame and out of the playback invocation — the
offending shape is not skipped. -/
theorem c8_empty_geometry_error :
    (∀ (angle : ℝ) (c : Color) (t : ℝ),
        (AnimationStep.rotate angle).apply [] c t = none) ∧
    (∀ (factor : ℝ) (c : Color) (t : ℝ),
        (AnimationStep.scale factor).apply [] c t = none) ∧
    (∀ (shapes : List Shape) (now : ℝ) (s : Shape),
        s ∈ shapes → s.activeAt now → shapeResolve s now = none →
        frameLoop shapes now = none) ∧
    (∀ (shapes : List Shape) (ts : List ℝ) (t : ℝ),
        t ∈ ts → frameLoop shapes t = none →
        playFrames shapes ts = none) := by
  exact ⟨rotate_apply_empty, scale_apply_empty,
    fun shapes now s hs hact he => frameLoop_error_of_mem now s shapes hs hact he,
    playFrames_error⟩

/-- Animation and shape with empty geometry and a Rotate step, for the
C8 witness. -/
noncomputable def emptyGeomAnim : Animation :=
  { steps := [.rotate 90], durations := [1], start_time := 0 }

/-- Shape with zero points carrying `emptyGeomAnim`. -/
noncomputable def emptyGeomShape : Shape :=
  { shape_id := "e", points := [], animation := some emptyGeomAnim }

/-- Witness for C8: a scene whose sole shape has empty geometry and an
active Rotate step; the whole frame and the whole playback error out. -/
theorem c8_empty_geometry_error_witness :
    emptyGeomShape ∈ [emptyGeomShape] ∧
    emptyGeomShape.activeAt (1/2) ∧
    shapeResolve emptyGeomShape (1/2) = none ∧
    frameLoop [emptyGeomShape] (1/2) = none ∧
    playFrames [emptyGeomShape] [1/2] = none := by
  have hmem : emptyGeomShape ∈ [emptyGeomShape] := by simp
  have hact : emptyGeomShape.activeAt (1/2) := by
    refine ⟨emptyGeomAnim, rfl, by norm_num [emptyGeomAnim], ?_⟩
    norm_num [emptyGeomAnim, Animation.end_time, Animation.duration]
  have hres : shapeResolve emptyGeomShape (1/2) = none := by
    rw [show shapeResolve emptyGeomShape (1/2) =
        runSteps [.rotate 90] [1] [] "#444444"
          ((1/2 : ℝ) - emptyGeomAnim.start_time) 0 from rfl]
    simp only [runSteps, if_neg (by norm_num : ¬ (1 : ℝ) ≤ 0)]
    rw [rotate_apply_empty]
  have hframe : frameLoop [emptyGeomShape] (1/2) = none :=
    c8_empty_geometry_error.2.2.1 [emptyGeomShape] (1/2) emptyGeomShape
      hmem hact hres
  exact ⟨hmem, hact, hres, hframe,
    c8_empty_geometry_error.2.2.2 [emptyGeomShape] [1/2] (1/2)
      (by simp) hframe⟩

/-- C9: `play_scene` never writes to any Shape — the source assigns only
the frame-local variables, so the embedding threads no shape state, and
what remains observable is exactly statelessness: frames over
concatenated poll lists concatenate (nothing flows between frames), and
re-polling the same instant reproduces the identical render events,
always recomputed from the shapes' base points/color. -/
theorem c9_playback_stateless :
    (∀ (shapes : List Shape) (ts1 ts2 : List ℝ),
        playFrames shapes (ts1 ++ ts2) =
          match playFrames shapes ts1, playFrames shapes ts2 with
          | some a, some b => some (a ++ b)
          | _, _ => none) ∧
    (∀ (shapes : List Shape) (t : ℝ) (evs : List RenderEvent) (f : Bool)
        (n : ℕ),
        frameLoop shapes t = some (evs, f) →
        playFrames shapes (List.replicate n t) =
          some (List.replicate n evs)) := by
  exact ⟨playFrames_append,
    fun shapes t evs f n h => playFrames_replicate shapes t evs f h n⟩

/-- Witness for C9: re-polling instant 3 of the two-window scene twice
reproduces the same single render event. -/
theorem c9_playback_stateless_witness :
    frameLoop sceneTwoWindows 3 =
      some ([("s2", [((1 : ℝ), (0 : ℝ))], "#444444")], false) ∧
    playFrames sceneTwoWindows (List.replicate 2 (3 : ℝ)) =
      some (List.replicate 2 [("s2", [((1 : ℝ), (0 : ℝ))], "#444444")]) := by
  exact ⟨frameLoop_sceneTwoWindows_at_three,
    c9_playback_stateless.2 sceneTwoWindows 3 _ false 2
      frameLoop_sceneTwoWindows_at_three⟩

/-- C10: on any color string of the shape "#RRGGBB", Fade.apply reads
the current brightness from characters 1-3 only (the red channel),
ignores green and blue entirely (they do not occur in the result), and
returns the achromatic "#vvvvvv" string `mkGray` builds from the
interpolated value. -/
theorem c10_fade_red_channel (b : ℤ) (g : ShapeData) (t : ℝ)
    (c : Color) (r1 r2 g1 g2 b1 b2 : Char) (v1 v2 : ℕ)
    (hc : c.data = ['#', r1, r2, g1, g2, b1, b2])
    (h1 : hexVal r1 = some v1) (h2 : hexVal r2 = some v2) :
    (AnimationStep.fade b).apply g c t =
      some (g, mkGray (pyInt (lerp ((16 * v1 + v2 : ℕ) : ℝ) (b : ℝ) t))) := by
  have hbr : colorBrightness c = some (16 * v1 + v2) := by
    rw [colorBrightness, hc]
    simp [pyIntHex, h1, h2]
  exact fade_apply_eq b g c t _ hbr

/-- Witness for C10 on the chromatic color "#ff0010": the result is the
gray built from the red channel 0xff = 255 alone. -/
theorem c10_fade_red_channel_witness :
    ("#ff0010" : Color).data = ['#', 'f', 'f', '0', '0', '1', '0'] ∧
    hexVal 'f' = some 15 ∧
    (AnimationStep.fade 0).apply [] "#ff0010" 1 =
      some ([], mkGray (pyInt (lerp ((16 * 15 + 15 : ℕ) : ℝ)
        ((0 : ℤ) : ℝ) 1))) := by
  refine ⟨rfl, by decide, ?_⟩
  exact c10_fade_red_channel 0 [] 1 "#ff0010" 'f' 'f' '0' '0' '1' '0' 15 15
    rfl (by decide) (by decide)
